import Mathlib

/-!
Verification of the pyre-check client front end (`client/pyre.py`): the
command execution lifecycle (`run_pyre_command`), the configuration
resolution fallback (`_create_configuration_with_retry`), telemetry
emission (`_log_statistics`), and the top-level dispatch (`pyre`, `main`).

The Python source is embedded shallowly: collaborators that live in other
modules of the repository (`configuration.create_configuration`, the
recently-used-configurations cache, the interactive prompt, and the
behaviour of a constructed `Command`) are passed in as explicit function
parameters, and the observable side effects of the lifecycle (logging an
error, reading the command result, cleanup, telemetry) are recorded in an
event trace so that ordering and exactly-once properties can be stated.
-/

namespace Pyre

/-- Modelled from the spec: the `ExitCode` enumeration of the missing
`commands` module, restricted to the stable taxonomy of section 6 of the
spec (`SUCCESS`, `FAILURE`, `BUCK_ERROR`, `CONFIGURATION_ERROR`), which is
exactly the set of codes used by `client/pyre.py`. -/
inductive ExitCode where
  | SUCCESS
  | FAILURE
  | BUCK_ERROR
  | CONFIGURATION_ERROR
  deriving Repr, DecidableEq

/-- Modelled from the spec: the `IncrementalStyle` enumeration of the
missing `commands` module; `client/pyre.py` uses members `SHALLOW` and
`FINE_GRAINED`. -/
inductive IncrementalStyle where
  | SHALLOW
  | FINE_GRAINED
  deriving Repr, DecidableEq

/-- The immutable snapshot of invocation flags.  Fields are exactly the
keyword arguments of the `command_arguments.CommandArguments` constructor
call in `pyre` (`client/pyre.py` lines 369-405); `Path` fields are strings,
`Optional[X]` fields are `Option`. -/
structure CommandArguments where
  local_configuration : Option String
  version : Bool
  debug : Bool
  sequential : Bool
  strict : Bool
  additional_checks : List String
  show_error_traces : Bool
  output : String
  enable_profiling : Bool
  enable_memory_profiling : Bool
  noninteractive : Bool
  logging_sections : Option String
  log_identifier : Option String
  logger : Option String
  formatter : Option String
  targets : List String
  use_buck_builder : Option Bool
  use_buck_source_database : Option Bool
  source_directories : List String
  filter_directory : Option String
  buck_mode : Option String
  no_saved_state : Bool
  search_path : List String
  binary : Option String
  buck_builder_binary : Option String
  exclude : List String
  typeshed : Option String
  save_initial_state_to : Option String
  load_initial_state_from : Option String
  changed_files_path : Option String
  saved_state_project : Option String
  dot_pyre_directory : Option String
  features : Option String
  deriving Repr, DecidableEq

/-- The fields of a resolved `Configuration` that `client/pyre.py` reads:
`local_root` and `logger` (in `_log_statistics`), `log_directory` (in
`run_pyre_command`), `source_directories`, `targets` and
`dot_pyre_directory` (in `_create_configuration_with_retry`).  The
`configuration` module itself is not under `src/`, so the value is treated
as produced by an abstract constructor (see `ResolverEnv`). -/
structure Configuration where
  local_root : Option String
  source_directories : List String
  targets : List String
  dot_pyre_directory : String
  log_directory : String
  logger : Option String
  deriving Repr, DecidableEq

/-- Modelled from the spec: the collaborators of the Configuration
Resolver that live outside `src/` — `configuration.create_configuration`
(builds a candidate `Configuration` from arguments and a base directory),
`recently_used_configurations.Cache(...).get_all_items()` (reads the
Recent-Roots Cache stored under a state directory, most-recent first), and
`recently_used_configurations.prompt_user_for_local_root` (the interactive
prompt; `none` when the operator declines).  They are injected as total
functions, as section 9 of the spec suggests for tests. -/
structure ResolverEnv where
  create_configuration : CommandArguments → String → Configuration
  cache_get_all_items : String → List String
  prompt_user_for_local_root : List String → Option String

/-- Observable actions of the Configuration Resolver, recorded in order:
each call to `create_configuration` (with the arguments it received), each
read of the Recent-Roots Cache, and each display of the interactive
prompt. -/
inductive ResolverEvent where
  | createCall (arguments : CommandArguments)
  | cacheRead (dot_pyre_directory : String)
  | promptShown (roots : List String)
  deriving Repr, DecidableEq

/-- Whether a resolver event is a call to `create_configuration`. -/
def isCreateCall : ResolverEvent → Bool
  | ResolverEvent.createCall _ => true
  | _ => false

/-- Error message raised when nothing is available to analyze
(`client/pyre.py` line 188). -/
def noTargetsMessage : String := "No buck targets or source directories to analyze."

/-- Error message raised when the operator declines the prompt
(`client/pyre.py` lines 200-202; note the trailing space in the source). -/
def noSelectionMessage : String := "Cannot determine which recent local root to rerun. "

/-- Embedding of `_create_configuration_with_retry` (`client/pyre.py`
lines 178-217).  `InvalidConfiguration` exceptions become `Except.error`
carrying the message; the second component is the trace of resolver
events.  `dataclasses.replace(arguments, local_configuration=root)`
becomes a structure update of the single field `local_configuration`. -/
def _create_configuration_with_retry (env : ResolverEnv)
    (arguments : CommandArguments) (base_directory : String) :
    Except String Configuration × List ResolverEvent :=
  let configuration := env.create_configuration arguments base_directory
  if configuration.source_directories.length > 0 ∨ configuration.targets.length > 0 then
    (Except.ok configuration, [ResolverEvent.createCall arguments])
  else
    let recently_used_local_roots :=
      env.cache_get_all_items configuration.dot_pyre_directory
    if recently_used_local_roots.length = 0 then
      (Except.error noTargetsMessage,
       [ResolverEvent.createCall arguments,
        ResolverEvent.cacheRead configuration.dot_pyre_directory])
    else
      match env.prompt_user_for_local_root recently_used_local_roots with
      | none =>
          (Except.error noSelectionMessage,
           [ResolverEvent.createCall arguments,
            ResolverEvent.cacheRead configuration.dot_pyre_directory,
            ResolverEvent.promptShown recently_used_local_roots])
      | some local_root_for_rerun =>
          let new_configuration := env.create_configuration
            { arguments with local_configuration := some local_root_for_rerun }
            base_directory
          (if new_configuration.source_directories.length > 0
              ∨ new_configuration.targets.length > 0 then
            Except.ok new_configuration
          else
            Except.error noTargetsMessage,
           [ResolverEvent.createCall arguments,
            ResolverEvent.cacheRead configuration.dot_pyre_directory,
            ResolverEvent.promptShown recently_used_local_roots,
            ResolverEvent.createCall
              { arguments with local_configuration := some local_root_for_rerun }])

/-- Two argument snapshots agree on every field other than
`local_configuration`. -/
def agreesExceptLocalRoot (a b : CommandArguments) : Prop :=
  a.version = b.version ∧ a.debug = b.debug ∧ a.sequential = b.sequential ∧
  a.strict = b.strict ∧ a.additional_checks = b.additional_checks ∧
  a.show_error_traces = b.show_error_traces ∧ a.output = b.output ∧
  a.enable_profiling = b.enable_profiling ∧
  a.enable_memory_profiling = b.enable_memory_profiling ∧
  a.noninteractive = b.noninteractive ∧
  a.logging_sections = b.logging_sections ∧
  a.log_identifier = b.log_identifier ∧ a.logger = b.logger ∧
  a.formatter = b.formatter ∧ a.targets = b.targets ∧
  a.use_buck_builder = b.use_buck_builder ∧
  a.use_buck_source_database = b.use_buck_source_database ∧
  a.source_directories = b.source_directories ∧
  a.filter_directory = b.filter_directory ∧ a.buck_mode = b.buck_mode ∧
  a.no_saved_state = b.no_saved_state ∧ a.search_path = b.search_path ∧
  a.binary = b.binary ∧ a.buck_builder_binary = b.buck_builder_binary ∧
  a.exclude = b.exclude ∧ a.typeshed = b.typeshed ∧
  a.save_initial_state_to = b.save_initial_state_to ∧
  a.load_initial_state_from = b.load_initial_state_from ∧
  a.changed_files_path = b.changed_files_path ∧
  a.saved_state_project = b.saved_state_project ∧
  a.dot_pyre_directory = b.dot_pyre_directory ∧ a.features = b.features

instance (a b : CommandArguments) : Decidable (agreesExceptLocalRoot a b) := by
  unfold agreesExceptLocalRoot
  infer_instance

/-- What the protected region of `run_pyre_command` (`client/pyre.py`
lines 88-91: `check_nested_local_configuration`, `start_logging_to_directory`,
`command.run().exit_code()`) is observed to do: either complete normally
with the exit code reported by `command.run()`, or raise one of the
exception kinds distinguished by the handlers on lines 92-106. -/
inductive RunException where
  | buckException (message : String)
  | environmentException (message : String)
  | clientException (message : String)
  | otherException (format_exc : String)
  | keyboardInterrupt
  deriving Repr, DecidableEq

/-- Outcome of the try-block of `run_pyre_command`. -/
inductive RunOutcome where
  | normal (exit_code : ExitCode)
  | raised (error : RunException)
  deriving Repr, DecidableEq

/-- The object returned by `command.result()`; its `error` attribute is an
optional string (`client/pyre.py` line 111, `_log_statistics` line 41). -/
structure CommandResultObj where
  error : Option String
  deriving Repr, DecidableEq

/-- Modelled from the spec: the observable behaviour of a constructed
`Command` (the `commands` module is not under `src/`).  Per the Command
boundary contract of spec section 6 it exposes `run()` (here: the outcome
of the protected region), `result()`, an idempotent `cleanup()`, a `NAME`
used verbatim in telemetry, and the `configuration` attribute read by
`_log_statistics`. -/
structure CommandBehavior where
  runOutcome : RunOutcome
  result : Option CommandResultObj
  NAME : String
  configuration : Option Configuration
  deriving Repr, DecidableEq

/-- Terminal actions of the `finally` block of `run_pyre_command`
(`client/pyre.py` lines 107-120), recorded in execution order. -/
inductive RunnerEvent where
  | logError (message : String)
  | readResult
  | cleanup
  | logStatistics
  deriving Repr, DecidableEq

/-- Python truthiness of an `Optional[str]`: `None` and the empty string
are falsy. -/
def pyTruthyStrOpt : Option String → Bool
  | none => false
  | some s => !s.isEmpty

/-- Python `int()` applied to a rational: truncation toward zero. -/
def pyIntTrunc (q : Rat) : Int := Int.tdiv q.num (q.den : Int)

/-- Modelled from the spec: the client version string `__version__` of the
missing `version` module (an opaque constant as far as this file is
concerned). -/
def clientVersion : String := "0.0.60"

/-- One telemetry record, with the fields assembled by `_log_statistics`
(`client/pyre.py` lines 47-62).  `exit_code` keeps the enumeration value
(the Python `IntEnum` is logged as its integer). -/
structure TelemetryRecord where
  exit_code : ExitCode
  runtime : Int
  root : Option String
  cwd : String
  client_version : String
  command : String
  client_exception : String
  error_message : Option String
  deriving Repr, DecidableEq

/-- Embedding of `_log_statistics` (`client/pyre.py` lines 37-62).  The
ambient reads `time.time()` and `os.getcwd()` are passed explicitly as
`current_time` (seconds, exact rational in place of the Python float) and
`cwd`.  Returns the emitted record, or `none` when the guard on line 46
(`should_log and configuration and configuration.logger`) is falsy. -/
def _log_statistics (command : CommandBehavior) (start_time : Rat)
    (client_exception_message : String) (error_message : Option String)
    (exit_code : ExitCode) (should_log : Bool)
    (current_time : Rat) (cwd : String) : Option TelemetryRecord :=
  match command.configuration with
  | none => none
  | some configuration =>
    if should_log && pyTruthyStrOpt configuration.logger then
      some { exit_code := exit_code,
             runtime := pyIntTrunc ((current_time - start_time) * 1000),
             root := configuration.local_root,
             cwd := cwd,
             client_version := clientVersion,
             command := command.NAME,
             client_exception := client_exception_message,
             error_message := error_message }
    else
      none

/-- The exception classification of `run_pyre_command` (`client/pyre.py`
lines 88-106): the final `exit_code` together with the captured
`client_exception_message` (initialised to `""` on line 83; the default
`exit_code` before any assignment is `ExitCode.FAILURE`, line 87).  The
handlers, first match wins: `(BuckException, EnvironmentException)` sets
the message and `FAILURE`, upgraded to `BUCK_ERROR` for a `BuckException`
(lines 92-96); `ClientException` sets the message and `FAILURE` (97-99);
any other `Exception` captures `traceback.format_exc()` and `FAILURE`
(100-102); `KeyboardInterrupt` warns and sets `SUCCESS` (103-106). -/
def classify_run_outcome : RunOutcome → ExitCode × String
  | RunOutcome.normal exit_code => (exit_code, "")
  | RunOutcome.raised (RunException.buckException message) =>
      (ExitCode.BUCK_ERROR, message)
  | RunOutcome.raised (RunException.environmentException message) =>
      (ExitCode.FAILURE, message)
  | RunOutcome.raised (RunException.clientException message) =>
      (ExitCode.FAILURE, message)
  | RunOutcome.raised (RunException.otherException format_exc) =>
      (ExitCode.FAILURE, format_exc)
  | RunOutcome.raised RunException.keyboardInterrupt =>
      (ExitCode.SUCCESS, "")

/-- `error_message = result.error if result else None` (`client/pyre.py`
lines 110-111). -/
def result_error (command : CommandBehavior) : Option String :=
  match command.result with
  | some result => result.error
  | none => none

/-- What one invocation of the Lifecycle Runner produces: the returned
exit code, the captured client-exception message, the ordered trace of
terminal actions, and the telemetry record (if one was emitted). -/
structure RunnerResult where
  exit_code : ExitCode
  client_exception_message : String
  events : List RunnerEvent
  telemetry : Option TelemetryRecord
  deriving Repr, DecidableEq

/-- Embedding of `run_pyre_command` (`client/pyre.py` lines 76-121).
`start_time` is the timestamp taken on line 81 and `current_time` the
clock value when `_log_statistics` runs; `should_log_statistics` is `True`
throughout (line 84).  The `finally` block (lines 107-120) logs the
client-exception message when non-empty, reads `command.result()`, calls
`command.cleanup()`, and finally calls `_log_statistics` — in that order —
on every path out of the try-block. -/
def run_pyre_command (command : CommandBehavior)
    (configuration : Configuration) (noninteractive : Bool)
    (start_time : Rat) (current_time : Rat) (cwd : String) : RunnerResult :=
  let exit_code := (classify_run_outcome command.runOutcome).1
  let client_exception_message := (classify_run_outcome command.runOutcome).2
  { exit_code := exit_code,
    client_exception_message := client_exception_message,
    events :=
      (if client_exception_message.length > 0 then
        [RunnerEvent.logError client_exception_message]
      else []) ++
      [RunnerEvent.readResult, RunnerEvent.cleanup, RunnerEvent.logStatistics],
    telemetry := _log_statistics command start_time client_exception_message
      (result_error command) exit_code true current_time cwd }

/-- Which `Command` variant a dispatch path constructed, with the
variant-specific parameters passed at the construction site. -/
inductive CommandKind where
  | check
  | incremental (nonblocking : Bool) (incremental_style : IncrementalStyle)
      (no_start_server : Bool) (no_watchman : Bool)
  deriving Repr, DecidableEq

/-- Modelled from the spec: the behaviour of the `Command` objects the
dispatch layer constructs (the `commands` module is not under `src/`).
Given the resolved `Configuration`, each oracle yields the observable
behaviour of the corresponding constructed command. -/
structure CommandEnv where
  checkBehavior : Configuration → CommandBehavior
  incrementalBehavior : Bool → IncrementalStyle → Bool → Bool →
    Configuration → CommandBehavior

/-- What one dispatch path produces: the exit code (or the message of an
`InvalidConfiguration` that escaped resolution), which `Command` variant
was constructed (`none` when resolution failed before construction), the
resolver's event trace, and whether the missing-watchman warning of
`_run_default_command` was printed. -/
structure DispatchResult where
  outcome : Except String ExitCode
  constructed : Option CommandKind
  resolver_events : List ResolverEvent
  warned_no_watchman : Bool
  deriving Repr

/-- Embedding of `_run_check_command` (`client/pyre.py` lines 124-132):
resolve the configuration through the retry heuristic, then construct and
run a `Check` command.  When resolution raises `InvalidConfiguration`, no
command is constructed and the error propagates. -/
def _run_check_command (env : ResolverEnv) (cenv : CommandEnv)
    (arguments : CommandArguments)
    (start_time : Rat) (current_time : Rat) (cwd : String) : DispatchResult :=
  match _create_configuration_with_retry env arguments "." with
  | (Except.error message, events) =>
      { outcome := Except.error message, constructed := none,
        resolver_events := events, warned_no_watchman := false }
  | (Except.ok configuration, events) =>
      { outcome := Except.ok (run_pyre_command (cenv.checkBehavior configuration)
          configuration arguments.noninteractive start_time current_time cwd).exit_code,
        constructed := some CommandKind.check,
        resolver_events := events, warned_no_watchman := false }

/-- Embedding of `_run_incremental_command` (`client/pyre.py` lines
135-155): resolve the configuration through the retry heuristic, then
construct and run an `Incremental` command with the given parameters. -/
def _run_incremental_command (env : ResolverEnv) (cenv : CommandEnv)
    (arguments : CommandArguments) (nonblocking : Bool)
    (incremental_style : IncrementalStyle) (no_start_server : Bool)
    (no_watchman : Bool)
    (start_time : Rat) (current_time : Rat) (cwd : String) : DispatchResult :=
  match _create_configuration_with_retry env arguments "." with
  | (Except.error message, events) =>
      { outcome := Except.error message, constructed := none,
        resolver_events := events, warned_no_watchman := false }
  | (Except.ok configuration, events) =>
      { outcome := Except.ok (run_pyre_command
          (cenv.incrementalBehavior nonblocking incremental_style no_start_server
            no_watchman configuration)
          configuration arguments.noninteractive start_time current_time cwd).exit_code,
        constructed := some (CommandKind.incremental nonblocking incremental_style
          no_start_server no_watchman),
        resolver_events := events, warned_no_watchman := false }

/-- Embedding of `_run_default_command` (`client/pyre.py` lines 158-175).
`watchman_found` is the truthiness of `shutil.which("watchman")`.  With
watchman available it dispatches to the incremental command with
`nonblocking=False`, `IncrementalStyle.FINE_GRAINED`,
`no_start_server=False`, `no_watchman=False`; otherwise it warns twice
about the missing watchman binary and falls back to the one-shot check. -/
def _run_default_command (env : ResolverEnv) (cenv : CommandEnv)
    (watchman_found : Bool) (arguments : CommandArguments)
    (start_time : Rat) (current_time : Rat) (cwd : String) : DispatchResult :=
  if watchman_found then
    _run_incremental_command env cenv arguments false
      IncrementalStyle.FINE_GRAINED false false start_time current_time cwd
  else
    { _run_check_command env cenv arguments start_time current_time cwd with
        warned_no_watchman := true }

/-- Embedding of the `pyre` click group callback (`client/pyre.py` lines
406-417), after the `CommandArguments` snapshot has been built: with the
version flag set, print versions and return `SUCCESS`; with no subcommand
invoked, run the default command; otherwise click dispatches to the
subcommand and the group's own return value (`SUCCESS`) is unused. -/
def pyre (env : ResolverEnv) (cenv : CommandEnv) (watchman_found : Bool)
    (arguments : CommandArguments) (invoked_subcommand : Option String)
    (start_time : Rat) (current_time : Rat) (cwd : String) : DispatchResult :=
  if arguments.version then
    { outcome := Except.ok ExitCode.SUCCESS, constructed := none,
      resolver_events := [], warned_no_watchman := false }
  else
    match invoked_subcommand with
    | none => _run_default_command env cenv watchman_found arguments
        start_time current_time cwd
    | some _ =>
        { outcome := Except.ok ExitCode.SUCCESS, constructed := none,
          resolver_events := [], warned_no_watchman := false }

/-- What the dispatch through click inside `main` is observed to do:
return a code, or raise one of the exception kinds distinguished by the
handlers of `main` (`client/pyre.py` lines 992-1002). -/
inductive ClickOutcome where
  | returned (code : ExitCode)
  | raisedEnvironmentException (message : String)
  | raisedInvalidConfiguration (message : String)
  | raisedClickException (message : String)
  deriving Repr, DecidableEq

/-- Embedding of `main` (`client/pyre.py` lines 989-1003):
`EnvironmentException` is logged and becomes `FAILURE`;
`InvalidConfiguration` is logged and returns `CONFIGURATION_ERROR`
immediately; `click.ClickException` is shown and becomes `FAILURE`;
otherwise the code returned by the dispatch is passed through. -/
def main (outcome : ClickOutcome) : ExitCode :=
  match outcome with
  | ClickOutcome.returned code => code
  | ClickOutcome.raisedEnvironmentException _ => ExitCode.FAILURE
  | ClickOutcome.raisedInvalidConfiguration _ => ExitCode.CONFIGURATION_ERROR
  | ClickOutcome.raisedClickException _ => ExitCode.FAILURE

/-- End-to-end process exit code when click dispatches to the `check`
subcommand (`client/pyre.py` lines 493-499 route it to
`_run_check_command`): an `InvalidConfiguration` escaping resolution
reaches the handler in `main`; a normal dispatch returns its code. -/
def process_exit_code_check (env : ResolverEnv) (cenv : CommandEnv)
    (arguments : CommandArguments)
    (start_time : Rat) (current_time : Rat) (cwd : String) : ExitCode :=
  match (_run_check_command env cenv arguments start_time current_time cwd).outcome with
  | Except.error message => main (ClickOutcome.raisedInvalidConfiguration message)
  | Except.ok code => main (ClickOutcome.returned code)

section Fixtures

/-- An argument snapshot with every flag at its quiet default, used to
instantiate theorems on concrete inputs. -/
def emptyArgs : CommandArguments where
  local_configuration := none
  version := false
  debug := false
  sequential := false
  strict := false
  additional_checks := []
  show_error_traces := false
  output := "text"
  enable_profiling := false
  enable_memory_profiling := false
  noninteractive := false
  logging_sections := none
  log_identifier := none
  logger := none
  formatter := none
  targets := []
  use_buck_builder := none
  use_buck_source_database := none
  source_directories := []
  filter_directory := none
  buck_mode := none
  no_saved_state := false
  search_path := []
  binary := none
  buck_builder_binary := none
  exclude := []
  typeshed := none
  save_initial_state_to := none
  load_initial_state_from := none
  changed_files_path := none
  saved_state_project := none
  dot_pyre_directory := none
  features := none

/-- A configuration with no source directories and no targets. -/
def cfgEmpty : Configuration where
  local_root := none
  source_directories := []
  targets := []
  dot_pyre_directory := "/home/user/.pyre"
  log_directory := "/home/user/.pyre/log"
  logger := none

/-- A configuration with one source directory. -/
def cfgWithSources : Configuration :=
  { cfgEmpty with local_root := some "rootA", source_directories := ["project"] }

/-- Resolver collaborators whose candidate configuration is immediately
actionable. -/
def envFast : ResolverEnv where
  create_configuration := fun _ _ => cfgWithSources
  cache_get_all_items := fun _ => ["oldRoot"]
  prompt_user_for_local_root := fun roots => roots.head?

/-- Resolver collaborators with an unactionable candidate and an empty
Recent-Roots Cache. -/
def envEmptyCache : ResolverEnv where
  create_configuration := fun _ _ => cfgEmpty
  cache_get_all_items := fun _ => []
  prompt_user_for_local_root := fun _ => none

/-- Resolver collaborators with an unactionable candidate, a non-empty
cache, and an operator who declines the prompt. -/
def envDecline : ResolverEnv where
  create_configuration := fun _ _ => cfgEmpty
  cache_get_all_items := fun _ => ["rootA"]
  prompt_user_for_local_root := fun _ => none

/-- Resolver collaborators where only the retried arguments (local root
overridden to `rootA`) yield an actionable configuration. -/
def envRetry : ResolverEnv where
  create_configuration := fun a _ =>
    if a.local_configuration = some "rootA" then cfgWithSources else cfgEmpty
  cache_get_all_items := fun _ => ["rootA"]
  prompt_user_for_local_root := fun roots => roots.head?

end Fixtures

/-- Claim C5: a `CommandArguments` whose derived candidate `Configuration`
has at least one source directory or target makes the resolver return that
very configuration immediately, with a trace containing only the single
`create_configuration` call — the Recent-Roots Cache is never consulted
and the operator is never prompted. -/
theorem resolver_fast_path (env : ResolverEnv) (arguments : CommandArguments)
    (base_directory : String)
    (h : (env.create_configuration arguments base_directory).source_directories.length > 0
      ∨ (env.create_configuration arguments base_directory).targets.length > 0) :
    _create_configuration_with_retry env arguments base_directory
      = (Except.ok (env.create_configuration arguments base_directory),
         [ResolverEvent.createCall arguments]) := by
  unfold _create_configuration_with_retry
  simp only [if_pos h]

/-- Witness for `resolver_fast_path` at a concrete environment. -/
theorem resolver_fast_path_witness :
    ((envFast.create_configuration emptyArgs ".").source_directories.length > 0
      ∨ (envFast.create_configuration emptyArgs ".").targets.length > 0)
    ∧ _create_configuration_with_retry envFast emptyArgs "."
        = (Except.ok (envFast.create_configuration emptyArgs "."),
           [ResolverEvent.createCall emptyArgs]) :=
  ⟨Or.inl (by decide),
   resolver_fast_path envFast emptyArgs "." (Or.inl (by decide))⟩

/-- Claim C6: a `CommandArguments` whose derived candidate has empty
source directories and targets, and whose Recent-Roots Cache (rooted at
the candidate's state directory) has no entries, makes resolution fail
with `InvalidConfiguration("No buck targets or source directories to
analyze.")`; the trace shows the operator was never prompted. -/
theorem resolver_empty_cache_fails (env : ResolverEnv)
    (arguments : CommandArguments) (base_directory : String)
    (h1 : (env.create_configuration arguments base_directory).source_directories = [])
    (h2 : (env.create_configuration arguments base_directory).targets = [])
    (h3 : env.cache_get_all_items
      (env.create_configuration arguments base_directory).dot_pyre_directory = []) :
    _create_configuration_with_retry env arguments base_directory
      = (Except.error "No buck targets or source directories to analyze.",
         [ResolverEvent.createCall arguments,
          ResolverEvent.cacheRead
            (env.create_configuration arguments base_directory).dot_pyre_directory]) := by
  unfold _create_configuration_with_retry
  simp [h1, h2, h3, noTargetsMessage]

/-- Witness for `resolver_empty_cache_fails` at a concrete environment. -/
theorem resolver_empty_cache_fails_witness :
    (envEmptyCache.create_configuration emptyArgs ".").source_directories = []
    ∧ (envEmptyCache.create_configuration emptyArgs ".").targets = []
    ∧ envEmptyCache.cache_get_all_items
        (envEmptyCache.create_configuration emptyArgs ".").dot_pyre_directory = []
    ∧ _create_configuration_with_retry envEmptyCache emptyArgs "."
        = (Except.error "No buck targets or source directories to analyze.",
           [ResolverEvent.createCall emptyArgs,
            ResolverEvent.cacheRead
              (envEmptyCache.create_configuration emptyArgs ".").dot_pyre_directory]) :=
  ⟨by decide, by decide, by decide,
   resolver_empty_cache_fails envEmptyCache emptyArgs "." (by decide) (by decide)
     (by decide)⟩

/-- Claim C7: with an unactionable candidate, a non-empty cache, and a
prompt that yields no selection, resolution fails with an
`InvalidConfiguration` whose message (that it cannot determine which
recent local root to rerun) is distinct from the empty-cache message. -/
theorem resolver_prompt_declined_fails (env : ResolverEnv)
    (arguments : CommandArguments) (base_directory : String)
    (h1 : (env.create_configuration arguments base_directory).source_directories = [])
    (h2 : (env.create_configuration arguments base_directory).targets = [])
    (h3 : env.cache_get_all_items
      (env.create_configuration arguments base_directory).dot_pyre_directory ≠ [])
    (h4 : env.prompt_user_for_local_root
      (env.cache_get_all_items
        (env.create_configuration arguments base_directory).dot_pyre_directory) = none) :
    (_create_configuration_with_retry env arguments base_directory).1
      = Except.error "Cannot determine which recent local root to rerun. "
    ∧ "Cannot determine which recent local root to rerun. "
      ≠ "No buck targets or source directories to analyze." := by
  constructor
  · unfold _create_configuration_with_retry
    simp [h1, h2, h3, h4, List.length_eq_zero, noSelectionMessage]
  · decide

/-- Witness for `resolver_prompt_declined_fails` at a concrete
environment. -/
theorem resolver_prompt_declined_fails_witness :
    envDecline.cache_get_all_items
      (envDecline.create_configuration emptyArgs ".").dot_pyre_directory ≠ []
    ∧ (_create_configuration_with_retry envDecline emptyArgs ".").1
        = Except.error "Cannot determine which recent local root to rerun. " :=
  ⟨by decide,
   (resolver_prompt_declined_fails envDecline emptyArgs "." (by decide) (by decide)
     (by decide) (by decide)).1⟩

/-- Claim C4: on the fallback path (unactionable candidate, non-empty
cache, operator selected root `r`), the resolver re-derives arguments
overriding only the local-root field, performs exactly one retry (two
`create_configuration` calls in total, no further recursion), returns the
retried configuration when it has a source directory or target, and
otherwise fails with the same message as the empty-cache branch. -/
theorem resolver_retry (env : ResolverEnv) (arguments : CommandArguments)
    (base_directory : String) (r : String)
    (h1 : (env.create_configuration arguments base_directory).source_directories = [])
    (h2 : (env.create_configuration arguments base_directory).targets = [])
    (h3 : env.cache_get_all_items
      (env.create_configuration arguments base_directory).dot_pyre_directory ≠ [])
    (h4 : env.prompt_user_for_local_root
      (env.cache_get_all_items
        (env.create_configuration arguments base_directory).dot_pyre_directory) = some r) :
    _create_configuration_with_retry env arguments base_directory
      = (if (env.create_configuration
              { arguments with local_configuration := some r }
              base_directory).source_directories.length > 0
            ∨ (env.create_configuration
                { arguments with local_configuration := some r }
                base_directory).targets.length > 0 then
           Except.ok (env.create_configuration
             { arguments with local_configuration := some r } base_directory)
         else
           Except.error "No buck targets or source directories to analyze.",
         [ResolverEvent.createCall arguments,
          ResolverEvent.cacheRead
            (env.create_configuration arguments base_directory).dot_pyre_directory,
          ResolverEvent.promptShown
            (env.cache_get_all_items
              (env.create_configuration arguments base_directory).dot_pyre_directory),
          ResolverEvent.createCall { arguments with local_configuration := some r }])
    ∧ ({ arguments with local_configuration := some r } :
        CommandArguments).local_configuration = some r
    ∧ agreesExceptLocalRoot { arguments with local_configuration := some r } arguments
    ∧ (_create_configuration_with_retry env arguments base_directory).2.countP
        (fun e => isCreateCall e) = 2 := by
  have hres : _create_configuration_with_retry env arguments base_directory
      = (if (env.create_configuration
              { arguments with local_configuration := some r }
              base_directory).source_directories.length > 0
            ∨ (env.create_configuration
                { arguments with local_configuration := some r }
                base_directory).targets.length > 0 then
           Except.ok (env.create_configuration
             { arguments with local_configuration := some r } base_directory)
         else
           Except.error "No buck targets or source directories to analyze.",
         [ResolverEvent.createCall arguments,
          ResolverEvent.cacheRead
            (env.create_configuration arguments base_directory).dot_pyre_directory,
          ResolverEvent.promptShown
            (env.cache_get_all_items
              (env.create_configuration arguments base_directory).dot_pyre_directory),
          ResolverEvent.createCall { arguments with local_configuration := some r }]) := by
    unfold _create_configuration_with_retry
    simp [h1, h2, h3, h4, List.length_eq_zero, noTargetsMessage]
  refine ⟨hres, rfl, ?_, ?_⟩
  · unfold agreesExceptLocalRoot
    repeat constructor
  · rw [hres]
    simp [List.countP_cons, isCreateCall]

/-- Witness for `resolver_retry` at a concrete environment where only the
retried arguments are actionable. -/
theorem resolver_retry_witness :
    (envRetry.create_configuration emptyArgs ".").source_directories = []
    ∧ (envRetry.create_configuration emptyArgs ".").targets = []
    ∧ envRetry.cache_get_all_items
        (envRetry.create_configuration emptyArgs ".").dot_pyre_directory ≠ []
    ∧ envRetry.prompt_user_for_local_root
        (envRetry.cache_get_all_items
          (envRetry.create_configuration emptyArgs ".").dot_pyre_directory)
        = some "rootA"
    ∧ agreesExceptLocalRoot
        { emptyArgs with local_configuration := some "rootA" } emptyArgs
    ∧ (_create_configuration_with_retry envRetry emptyArgs ".").2.countP
        (fun e => isCreateCall e) = 2 :=
  ⟨by decide, by decide, by decide, by decide,
   (resolver_retry envRetry emptyArgs "." "rootA" (by decide) (by decide) (by decide)
     (by decide)).2.2.1,
   (resolver_retry envRetry emptyArgs "." "rootA" (by decide) (by decide) (by decide)
     (by decide)).2.2.2⟩

section RunnerFixtures

/-- A command that completes normally with `SUCCESS` and reports no
result object. -/
def cmdPlain : CommandBehavior where
  runOutcome := RunOutcome.normal ExitCode.SUCCESS
  result := none
  NAME := "check"
  configuration := some cfgWithSources

/-- A configuration that designates a telemetry logger. -/
def cfgLogger : Configuration := { cfgEmpty with logger := some "remote" }

/-- A command whose configuration designates a telemetry logger. -/
def cmdLogger : CommandBehavior where
  runOutcome := RunOutcome.normal ExitCode.SUCCESS
  result := some { error := none }
  NAME := "check"
  configuration := some cfgLogger

/-- Command constructors whose commands complete normally. -/
def cenvConst : CommandEnv where
  checkBehavior := fun c =>
    { runOutcome := RunOutcome.normal ExitCode.SUCCESS, result := none,
      NAME := "check", configuration := some c }
  incrementalBehavior := fun _ _ _ _ c =>
    { runOutcome := RunOutcome.normal ExitCode.SUCCESS, result := none,
      NAME := "incremental", configuration := some c }

end RunnerFixtures

/-- The event trace of one runner invocation, spelled out. -/
theorem run_pyre_command_events (command : CommandBehavior)
    (configuration : Configuration) (noninteractive : Bool)
    (start_time current_time : Rat) (cwd : String) :
    (run_pyre_command command configuration noninteractive start_time
        current_time cwd).events
      = (if (classify_run_outcome command.runOutcome).2.length > 0 then
          [RunnerEvent.logError (classify_run_outcome command.runOutcome).2]
        else []) ++
        [RunnerEvent.readResult, RunnerEvent.cleanup, RunnerEvent.logStatistics] :=
  rfl

/-- Claim C1: the exit code returned by the Lifecycle Runner, and the
captured client-exception text, are determined by a first-match
classification of what the protected region raised: a buck failure gives
`BUCK_ERROR` with the error's message; an environment failure or a
client-reported failure gives `FAILURE` with the error's message; any
other uncaught fault gives `FAILURE` with the captured trace; a user
interruption gives `SUCCESS`; and with nothing raised the outcome is
whatever `command.run()` reported (the pre-assignment default on line 87
being `FAILURE`). -/
theorem run_pyre_command_classification (command : CommandBehavior)
    (configuration : Configuration) (noninteractive : Bool)
    (start_time current_time : Rat) (cwd : String) :
    ((run_pyre_command command configuration noninteractive start_time
        current_time cwd).exit_code,
     (run_pyre_command command configuration noninteractive start_time
        current_time cwd).client_exception_message)
      = match command.runOutcome with
        | RunOutcome.normal code => (code, "")
        | RunOutcome.raised (RunException.buckException m) =>
            (ExitCode.BUCK_ERROR, m)
        | RunOutcome.raised (RunException.environmentException m) =>
            (ExitCode.FAILURE, m)
        | RunOutcome.raised (RunException.clientException m) =>
            (ExitCode.FAILURE, m)
        | RunOutcome.raised (RunException.otherException tr) =>
            (ExitCode.FAILURE, tr)
        | RunOutcome.raised RunException.keyboardInterrupt =>
            (ExitCode.SUCCESS, "") := by
  cases h : command.runOutcome with
  | normal code => simp [run_pyre_command, classify_run_outcome, h]
  | raised e => cases e <;> simp [run_pyre_command, classify_run_outcome, h]

/-- Claim C2 fails on the code: at this concrete invocation the terminal
trace reads the command result before calling cleanup, so cleanup does not
precede the result read as the claim states. -/
theorem cleanup_before_result_counterexample :
    (run_pyre_command cmdPlain cfgWithSources false 0 0 "/work").events
      = [RunnerEvent.readResult, RunnerEvent.cleanup, RunnerEvent.logStatistics]
    ∧ ¬ ((run_pyre_command cmdPlain cfgWithSources false 0 0 "/work").events.indexOf
          RunnerEvent.cleanup
        < (run_pyre_command cmdPlain cfgWithSources false 0 0 "/work").events.indexOf
          RunnerEvent.readResult) := by
  constructor
  · rfl
  · decide

/-- Claim C2 as amended: on every exit path the terminal actions happen in
the order — log the captured client-exception message as an error (when
non-empty), read `command.result()`, call `command.cleanup()`, then emit
telemetry; in particular cleanup still always precedes telemetry
emission. -/
theorem terminal_actions_order (command : CommandBehavior)
    (configuration : Configuration) (noninteractive : Bool)
    (start_time current_time : Rat) (cwd : String) :
    (run_pyre_command command configuration noninteractive start_time
        current_time cwd).events
      = (if (run_pyre_command command configuration noninteractive start_time
              current_time cwd).client_exception_message.length > 0 then
          [RunnerEvent.logError
            (run_pyre_command command configuration noninteractive start_time
              current_time cwd).client_exception_message]
        else []) ++
        [RunnerEvent.readResult, RunnerEvent.cleanup, RunnerEvent.logStatistics] :=
  rfl

/-- Claim C3: `command.cleanup()` is invoked exactly once per invocation
of the Lifecycle Runner, on every exit path — normal completion, every
classified error kind, unexpected faults, and user interruption. -/
theorem cleanup_exactly_once (command : CommandBehavior)
    (configuration : Configuration) (noninteractive : Bool)
    (start_time current_time : Rat) (cwd : String) :
    (run_pyre_command command configuration noninteractive start_time
        current_time cwd).events.count RunnerEvent.cleanup = 1 := by
  rw [run_pyre_command_events]
  by_cases h : (classify_run_outcome command.runOutcome).2.length > 0 <;>
    simp [h, List.count_append, List.count_cons]

/-- Truncation toward zero of a non-negative rational is non-negative. -/
theorem pyIntTrunc_nonneg {q : Rat} (h : 0 ≤ q) : 0 ≤ pyIntTrunc q := by
  unfold pyIntTrunc
  exact Int.tdiv_nonneg (Rat.num_nonneg.mpr h) (Int.ofNat_nonneg q.den)

/-- Claim C8: the runner emits exactly one telemetry record if and only if
the command's resolved configuration designates a telemetry logger; the
record carries the final exit code, the truncated elapsed milliseconds
(non-negative when the clock did not go backwards), the local root, the
working directory, the client version, the command name, the captured
client-exception text, and the optional result error text. -/
theorem telemetry_iff_logger (command : CommandBehavior)
    (configuration : Configuration) (noninteractive : Bool)
    (start_time current_time : Rat) (cwd : String)
    (h1 : command.configuration = some configuration)
    (h2 : start_time ≤ current_time) :
    (run_pyre_command command configuration noninteractive start_time
        current_time cwd).telemetry
      = (if pyTruthyStrOpt configuration.logger then
          some { exit_code := (run_pyre_command command configuration noninteractive
                   start_time current_time cwd).exit_code,
                 runtime := pyIntTrunc ((current_time - start_time) * 1000),
                 root := configuration.local_root,
                 cwd := cwd,
                 client_version := clientVersion,
                 command := command.NAME,
                 client_exception := (run_pyre_command command configuration
                   noninteractive start_time current_time cwd).client_exception_message,
                 error_message := result_error command }
        else none)
    ∧ 0 ≤ pyIntTrunc ((current_time - start_time) * 1000)
    ∧ (run_pyre_command command configuration noninteractive start_time
        current_time cwd).events.count RunnerEvent.logStatistics = 1 := by
  refine ⟨?_, ?_, ?_⟩
  · simp [run_pyre_command, _log_statistics, h1]
  · exact pyIntTrunc_nonneg
      (mul_nonneg (sub_nonneg.mpr h2) (by norm_num))
  · rw [run_pyre_command_events]
    by_cases h : (classify_run_outcome command.runOutcome).2.length > 0 <;>
      simp [h, List.count_append, List.count_cons]

/-- Witness for `telemetry_iff_logger` at a concrete command with a
logger-designating configuration and clock values 0 and 1 second. -/
theorem telemetry_iff_logger_witness :
    cmdLogger.configuration = some cfgLogger
    ∧ ((0 : Rat) ≤ 1)
    ∧ (run_pyre_command cmdLogger cfgLogger false 0 1 "/work").telemetry
        = (if pyTruthyStrOpt cfgLogger.logger then
            some { exit_code := (run_pyre_command cmdLogger cfgLogger false
                     0 1 "/work").exit_code,
                   runtime := pyIntTrunc ((1 - 0) * 1000),
                   root := cfgLogger.local_root,
                   cwd := "/work",
                   client_version := clientVersion,
                   command := cmdLogger.NAME,
                   client_exception := (run_pyre_command cmdLogger cfgLogger false
                     0 1 "/work").client_exception_message,
                   error_message := result_error cmdLogger }
          else none)
    ∧ (run_pyre_command cmdLogger cfgLogger false 0 1 "/work").events.count
        RunnerEvent.logStatistics = 1 :=
  ⟨rfl, by norm_num,
   (telemetry_iff_logger cmdLogger cfgLogger false 0 1 "/work" rfl
     (by norm_num)).1,
   (telemetry_iff_logger cmdLogger cfgLogger false 0 1 "/work" rfl
     (by norm_num)).2.2⟩

/-- Claim C9: an `InvalidConfiguration` raised during resolution aborts
before any `Command` is constructed and, through the handler in `main`,
surfaces at the process boundary as `CONFIGURATION_ERROR`; every other
path yields only the final exit code (the runner and `main` are total). -/
theorem invalid_configuration_aborts (env : ResolverEnv) (cenv : CommandEnv)
    (arguments : CommandArguments) (start_time current_time : Rat)
    (cwd : String) (message : String)
    (h : (_create_configuration_with_retry env arguments ".").1
      = Except.error message) :
    (_run_check_command env cenv arguments start_time current_time cwd).constructed
      = none
    ∧ process_exit_code_check env cenv arguments start_time current_time cwd
      = ExitCode.CONFIGURATION_ERROR := by
  rcases h2 : _create_configuration_with_retry env arguments "." with ⟨res, evs⟩
  rw [h2] at h
  simp only at h
  subst h
  constructor
  · simp [_run_check_command, h2]
  · simp [process_exit_code_check, _run_check_command, h2, main]

/-- Witness for `invalid_configuration_aborts` at a concrete environment
whose candidate configuration is unactionable and whose cache is empty. -/
theorem invalid_configuration_aborts_witness :
    (_create_configuration_with_retry envEmptyCache emptyArgs ".").1
      = Except.error "No buck targets or source directories to analyze."
    ∧ process_exit_code_check envEmptyCache cenvConst emptyArgs 0 1 "/work"
      = ExitCode.CONFIGURATION_ERROR :=
  ⟨rfl,
   (invalid_configuration_aborts envEmptyCache cenvConst emptyArgs 0 1 "/work"
     "No buck targets or source directories to analyze." rfl).2⟩

/-- Claim C10: invoked with no subcommand and the version flag unset, the
entry point dispatches to the Incremental command with fine-grained style
when a watchman binary is found, and otherwise warns and falls back to the
one-shot Check command; both paths resolve the configuration through the
retry heuristic. -/
theorem default_command_dispatch (env : ResolverEnv) (cenv : CommandEnv)
    (watchman_found : Bool) (arguments : CommandArguments)
    (start_time current_time : Rat) (cwd : String)
    (h : arguments.version = false) :
    pyre env cenv watchman_found arguments none start_time current_time cwd
      = (if watchman_found then
          _run_incremental_command env cenv arguments false
            IncrementalStyle.FINE_GRAINED false false start_time current_time cwd
        else
          { _run_check_command env cenv arguments start_time current_time cwd with
              warned_no_watchman := true })
    ∧ (pyre env cenv watchman_found arguments none start_time current_time
        cwd).resolver_events
      = (_create_configuration_with_retry env arguments ".").2
    ∧ (pyre env cenv watchman_found arguments none start_time current_time
        cwd).warned_no_watchman = !watchman_found := by
  refine ⟨by simp [pyre, h, _run_default_command], ?_, ?_⟩ <;>
    rcases h2 : _create_configuration_with_retry env arguments "." with ⟨res, evs⟩ <;>
    cases watchman_found <;> cases res <;>
    simp [pyre, h, _run_default_command, _run_incremental_command,
      _run_check_command, h2]

/-- Witness for `default_command_dispatch` with watchman present and an
immediately actionable configuration. -/
theorem default_command_dispatch_witness :
    emptyArgs.version = false
    ∧ (pyre envFast cenvConst true emptyArgs none 0 1 "/work").resolver_events
        = (_create_configuration_with_retry envFast emptyArgs ".").2
    ∧ (pyre envFast cenvConst true emptyArgs none 0 1 "/work").warned_no_watchman
        = !true :=
  ⟨by decide,
   (default_command_dispatch envFast cenvConst true emptyArgs 0 1 "/work"
     (by decide)).2.1,
   (default_command_dispatch envFast cenvConst true emptyArgs 0 1 "/work"
     (by decide)).2.2⟩

end Pyre
